import Mathlib

/-!
Verification development for the voice-call gateway repository
(WS gateway, session gateway, client VAD hooks).

Each section embeds, as executable Lean definitions, the part of the
source code that the corresponding property is about; theorems about
those definitions settle the properties.
-/

set_option maxHeartbeats 1000000

/-! ## Part 1: ws-gateway/server.js — per-connection turn state machine

The connection handler keeps, per session, the mutable variables
`chunks`, `forwarded`, `llmStarted`, `llmDone`, `sttLastFinal`,
`sttLastInterim` and the `silenceTimer`.  The triggers that can act on a
turn are: an audio chunk arriving (binary or JSON `audio`), the silence
timer firing, an explicit `eos` control message, an STT final/interim
result from the streaming recognizer, and the WebSocket `close` event.
We embed the relevant handler bodies as a step function on this state.

Effects are tracked by two counters: `forwardCount` counts executions of
the body of `forwardAndRespond` past its latch (one execution = one POST
of the concatenated buffer to the conversation endpoint), and `llmRuns`
counts invocations of `runLLMAndTTS` (one invocation = one streaming
LLM/TTS reply cycle ending in one `ai_done`).
-/

/-! ### JavaScript string primitives

The handlers use the JavaScript string methods `trim`, `trimmed-end
regex tests`, `startsWith`, `split`, `toLowerCase` and `slice`.  They
are embedded structurally over the character list of the string (the
corresponding Lean core functions are byte-position based and do not
evaluate inside the kernel). -/

/-- Whitespace for the JavaScript `trim` / `\s`: space, tab, newline,
carriage return, form feed, vertical tab. -/
def jsIsSpace (c : Char) : Bool :=
  c = ' ' || c = '\t' || c = '\n' || c = '\r' || c = '\x0c' || c = '\x0b'

/-- Drop leading whitespace from a character list. -/
def dropWsLeft : List Char → List Char
  | [] => []
  | c :: cs => if jsIsSpace c then dropWsLeft cs else c :: cs

/-- JavaScript `s.trimEnd()`. -/
def jsTrimEnd (s : String) : String :=
  ⟨(dropWsLeft s.data.reverse).reverse⟩

/-- JavaScript `s.trim()`. -/
def jsTrim (s : String) : String :=
  ⟨(dropWsLeft (dropWsLeft s.data).reverse).reverse⟩

/-- JavaScript `s.startsWith(p)`. -/
def jsStartsWith (s p : String) : Bool :=
  List.isPrefixOf p.data s.data

/-- Split a character list at a separator character. -/
def splitChars (sep : Char) : List Char → List Char → List (List Char)
  | acc, [] => [acc.reverse]
  | acc, c :: cs =>
      if c = sep then acc.reverse :: splitChars sep [] cs
      else splitChars sep (c :: acc) cs

/-- JavaScript `s.split(sep)` for a one-character separator. -/
def jsSplit (s : String) (sep : Char) : List String :=
  (splitChars sep [] s.data).map (fun l => ⟨l⟩)

/-- JavaScript `s.toLowerCase()` (per-character lowering). -/
def jsToLower (s : String) : String :=
  ⟨s.data.map Char.toLower⟩

/-- JavaScript `s.slice(n)`. -/
def jsDrop (s : String) (n : Nat) : String :=
  ⟨s.data.drop n⟩

/-- Session state of one ws-gateway connection (the closure variables of
the `wss.on` connection handler in `ws-gateway/server.js`). -/
structure GwState where
  chunks : List (List Nat)
  forwarded : Bool
  llmStarted : Bool
  llmDone : Bool
  sttLastFinal : String
  sttLastInterim : String
  silenceArmed : Bool
  closed : Bool
  forwardCount : Nat
  llmRuns : Nat
deriving DecidableEq, Repr

/-- Initial session state after `wss.on` connection setup. -/
def gwInit : GwState :=
  { chunks := [], forwarded := false, llmStarted := false, llmDone := false,
    sttLastFinal := "", sttLastInterim := "", silenceArmed := false,
    closed := false, forwardCount := 0, llmRuns := 0 }

/-- The transcript selection used by the silence timer, the `eos` handler
and the close handler:
`(sttLastFinal && sttLastFinal.trim()) ? sttLastFinal : (sttLastInterim && sttLastInterim.trim()) ? sttLastInterim : ""`. -/
def pickText (fin interim : String) : String :=
  if jsTrim fin ≠ "" then fin else if jsTrim interim ≠ "" then interim else ""

/-- Sentence-final characters of the early-trigger regex
`[。．\.？！!?]` in `ws-gateway/server.js`. -/
def sentenceEndChars : List Char := ['。', '．', '.', '？', '！', '!', '?']

/-- Test of the regex `[。．\.？！!?]\s*$`: after stripping trailing
whitespace, the last character is sentence-final punctuation. -/
def endsSentence (t : String) : Bool :=
  match (jsTrimEnd t).data.getLast? with
  | some c => sentenceEndChars.contains c
  | none => false

/-- The early-trigger heuristic on interim transcripts:
`/[。．\.？！!?]\s*$/.test(alt) || alt.length >= 30`. -/
def strongInterim (t : String) : Bool :=
  endsSentence t || t.length ≥ 30

/-- `forwardAndRespond` from `ws-gateway/server.js`: the latch check
`if (forwarded) return; forwarded = true`, clearing of the silence timer,
concatenation and reset of `chunks`, and the POST of the buffered audio
to the conversation endpoint (counted by `forwardCount`). -/
def forwardAndRespond (s : GwState) : GwState :=
  if s.forwarded then s
  else { s with forwarded := true, silenceArmed := false, chunks := [],
                forwardCount := s.forwardCount + 1 }

/-- `runLLMAndTTS` invocation: one streaming reply cycle is started
(`llmStarted` is set by the callers, matching the source). -/
def runLLM (s : GwState) : GwState :=
  { s with llmRuns := s.llmRuns + 1 }

/-- Triggers that can act on a turn of a ws-gateway session. -/
inductive GwEvent where
  | audioChunk (b : List Nat)
  | silenceFire
  | eos
  | sttFinalRes (t : String)
  | sttInterimRes (t : String)
  | closeEvt
deriving DecidableEq, Repr

/-- One step of the ws-gateway session: the bodies of `armSilenceTimer`
(timer callback), the `message` handler branches for audio and `eos`,
the STT `data` handler, and the `close` handler, embedded from
`ws-gateway/server.js`.  A fired timer that was cleared does not run
(`silenceArmed` guard); after `close` the socket delivers no further
events (`closed` guard). -/
def gwStep (s : GwState) (e : GwEvent) : GwState :=
  if s.closed then s else
  match e with
  | .audioChunk b =>
      { s with chunks := s.chunks ++ [b], silenceArmed := true }
  | .silenceFire =>
      if !s.silenceArmed then s else
      let s1 := { s with silenceArmed := false }
      if !s1.forwarded && decide (s1.chunks.length > 0) then
        let text := pickText s1.sttLastFinal s1.sttLastInterim
        if !s1.llmStarted && decide (text ≠ "") then
          runLLM { s1 with llmStarted := true }
        else s1
      else s1
  | .eos =>
      let text := pickText s.sttLastFinal s.sttLastInterim
      if !s.llmStarted && decide (text ≠ "") then
        runLLM { s with llmStarted := true }
      else forwardAndRespond s
  | .sttFinalRes t =>
      let s1 := { s with sttLastFinal := t }
      if !s1.llmStarted && decide (jsTrim t ≠ "") then
        runLLM { s1 with llmStarted := true }
      else s1
  | .sttInterimRes t =>
      let s1 := { s with sttLastInterim := t }
      if !s1.llmStarted && strongInterim t then
        runLLM { s1 with llmStarted := true }
      else s1
  | .closeEvt =>
      let s1 := { s with closed := true }
      if !s1.llmStarted && !s1.llmDone then
        let text := pickText s1.sttLastFinal s1.sttLastInterim
        if decide (text ≠ "") then runLLM s1
        else if !s1.forwarded && decide (s1.chunks.length > 0) then
          forwardAndRespond s1
        else s1
      else s1

/-- Run a ws-gateway session over a list of trigger events. -/
def gwRun (s : GwState) (es : List GwEvent) : GwState :=
  List.foldl gwStep s es

/-! ## Part 2: HTTP upgrade admission control

Three upgrade handlers exist in the sources: `ws-gateway/server.js`
(`server.on` upgrade), `src/server/index.js` (`server.on` upgrade), and
the hardened variant of the latter (the unnamed source `part_014`, which
adds `ALLOW_NO_ORIGIN` and `ALLOW_QUERY_TOKEN`).  Each is embedded as a
pure decision function over the request headers. -/

/-- Outcome of an HTTP upgrade request. `accept` means
`wss.handleUpgrade` runs and a session is created; the reject cases are
the literal HTTP responses written to the raw socket before destroy. -/
inductive Decision where
  | accept
  | reject404
  | reject403
  | reject401
deriving DecidableEq, Repr

/-- JavaScript truthiness of an optional header string (`undefined` and
the empty string are falsy). -/
def truthy : Option String → Bool
  | none => false
  | some s => decide (s ≠ "")

/-- The JavaScript idiom `a || b || ""` on optional header strings. -/
def jsOr (a b : Option String) : String :=
  if truthy a then a.getD "" else if truthy b then b.getD "" else ""

/-- Configuration of the ws-gateway upgrade handler
(`WS_PATH`, `ALLOWED_ORIGIN`, `REQUIRE_TOKEN`, `WS_TOKEN`). -/
structure WgConfig where
  wsPath : String
  allowedOrigins : List String
  requireToken : Bool
  wsToken : String
deriving DecidableEq, Repr

/-- The request fields read by the ws-gateway upgrade handler: the raw
request URL and the `origin`, `sec-websocket-protocol` and
`authorization` headers. -/
structure WgRequest where
  url : String
  origin : Option String
  secWsProtocol : Option String
  authorization : Option String
deriving DecidableEq, Repr

/-- The `server.on` upgrade handler of `ws-gateway/server.js`:
path check `!url || !url.startsWith(WS_PATH)` first (404), then origin
`ALLOWED_ORIGIN.length && headers.origin && !ALLOWED_ORIGIN.includes(...)`
(403), then the optional bearer-token check on the
`sec-websocket-protocol` or `authorization` header (401). -/
def wgUpgrade (c : WgConfig) (r : WgRequest) : Decision :=
  if r.url = "" ∨ jsStartsWith r.url c.wsPath = false then .reject404
  else if c.allowedOrigins ≠ [] ∧ truthy r.origin = true ∧
          r.origin.getD "" ∉ c.allowedOrigins then .reject403
  else if c.requireToken = true ∧
          ¬ (jsOr r.secWsProtocol r.authorization = c.wsToken ∨
             jsOr r.secWsProtocol r.authorization = "Bearer " ++ c.wsToken) then
    .reject401
  else .accept

/-- Configuration of the `src/server/index.js` upgrade handler
(`WS_ALLOWED_ORIGINS`, `REQUIRE_WS_TOKEN`, `WS_TOKEN`). -/
structure SiConfig where
  allowedOrigins : List String
  requireToken : Bool
  wsToken : String
deriving DecidableEq, Repr

/-- The request fields read by the `src/server/index.js` upgrade
handler: the parsed pathname, the `origin` and `x-ws-token` headers, and
the `token` query parameter. -/
structure SiRequest where
  pathname : String
  origin : Option String
  xWsToken : Option String
  queryToken : Option String
deriving DecidableEq, Repr

/-- The `server.on` upgrade handler of `src/server/index.js`: origin
check first (`origin && !allowedOrigins.has(origin)` gives 403), then
exact path check (`pathname !== "/ws"` gives 404), then the optional
token check `!expected || provided !== expected` (401) with
`provided = headerToken || queryToken || ""`. -/
def siUpgrade (c : SiConfig) (r : SiRequest) : Decision :=
  if truthy r.origin = true ∧ r.origin.getD "" ∉ c.allowedOrigins then .reject403
  else if r.pathname ≠ "/ws" then .reject404
  else if c.requireToken = true ∧
          (c.wsToken = "" ∨ jsOr r.xWsToken r.queryToken ≠ c.wsToken) then
    .reject401
  else .accept

/-- Configuration of the hardened upgrade handler (unnamed source
`part_014`): adds `ALLOW_NO_ORIGIN` and `ALLOW_QUERY_TOKEN`. -/
structure HdConfig where
  allowNoOrigin : Bool
  allowQueryToken : Bool
  allowedOrigins : List String
  requireToken : Bool
  wsToken : String
deriving DecidableEq, Repr

/-- The request fields read by the hardened upgrade handler. -/
structure HdRequest where
  pathname : String
  origin : Option String
  secWsProtocol : Option String
  xWsToken : Option String
  queryToken : Option String
deriving DecidableEq, Repr

/-- Token extraction from the `sec-websocket-protocol` header in
`part_014`: split on commas, trim, keep nonempty entries, and take the
first entry of the form `token=...` (slice 6) or `bearer:...`
(lowercased test, slice 7); empty string when none matches. -/
def tokenFromSSP (raw : String) : String :=
  let parts := ((jsSplit raw ',').map jsTrim).filter (fun p => p ≠ "")
  match parts.find? (fun p =>
      jsStartsWith p "token=" || jsStartsWith (jsToLower p) "bearer:") with
  | some p => if jsStartsWith p "token=" then jsDrop p 6 else jsDrop p 7
  | none => ""

/-- The `server.on` upgrade handler of the hardened gateway
(`part_014`): absent origin is rejected 403 unless `ALLOW_NO_ORIGIN`,
present origin must be allow-listed (403), exact path check (404), then
token check with priority subprotocol, header, query (401). -/
def hdUpgrade (c : HdConfig) (r : HdRequest) : Decision :=
  if truthy r.origin = false ∧ c.allowNoOrigin = false then .reject403
  else if truthy r.origin = true ∧ r.origin.getD "" ∉ c.allowedOrigins then .reject403
  else if r.pathname ≠ "/ws" then .reject404
  else
    let sspTok := tokenFromSSP (r.secWsProtocol.getD "")
    let provided :=
      if sspTok ≠ "" then sspTok
      else jsOr r.xWsToken (if c.allowQueryToken then r.queryToken else none)
    if c.requireToken = true ∧
       (c.wsToken = "" ∨ provided = "" ∨ provided ≠ c.wsToken) then .reject401
    else .accept

/-! ## Part 3: src/server/index.js — per-connection session machine

The connection handler keeps, per client, the variables `bridge`,
`sentReady`, `acked`, `upstreamReady`, `readyTimer` and the keepalive
interval.  Client control messages, the asynchronous outcome of
`openLiveSession`, the upstream bridge callbacks (`onEvent`, `onClose`)
and the readiness timer are the triggers.  The messages sent to the
client (`sendJson`) are recorded in order in `out`; audio chunks relayed
to a live upstream (`bridge.sendAudio`) are counted by
`upstreamAudio`. -/

/-- readyState of the upstream WebSocket owned by the bridge, the state
machine of the `ws` client library: CONNECTING while the handshake is in
flight, OPEN after a successful upgrade, CLOSING after a local
`close()` on an open socket, CLOSED after the connection ends. -/
inductive WsReadyState where
  | connecting
  | openState
  | closing
  | closedState
deriving DecidableEq, Repr

/-- The handle returned by `openLiveSession` in `server/live-bridge.mjs`
(the second document concatenated into `src/config/featureFlags.ts`).
It owns one upstream WebSocket (`const upstream = new WebSocket(url, ...)`)
and its accessors read that socket:
`ready: () => upstream.readyState === WebSocket.OPEN` and
`close: () => upstream.close(1000, "gateway_shutdown")`. -/
structure Bridge where
  readyState : WsReadyState
deriving DecidableEq, Repr

/-- The `ready()` accessor of the bridge handle:
`upstream.readyState === WebSocket.OPEN`. -/
def Bridge.isReady (b : Bridge) : Bool :=
  b.readyState = WsReadyState.openState

/-- Effect of the upstream `open` event (the handler that emits
`status upstream_ready` in `live-bridge.mjs`) on the socket state: the
`ws` client sets readyState to OPEN from CONNECTING just before
emitting `open`; a socket whose close was already initiated never
emits `open` (the handshake is aborted), and no `ws` transition leads
from CLOSING or CLOSED back to OPEN, so every other state is left
unchanged. -/
def wsOpenTransition : WsReadyState → WsReadyState
  | .connecting => .openState
  | st => st

/-- Effect of the bridge `close()` call
(`upstream.close(1000, "gateway_shutdown")`): an OPEN socket starts the
closing handshake (CLOSING), a CONNECTING socket is aborted before the
connection is established (CLOSED), a closing or closed socket is
unchanged; in no case does the socket return to OPEN. -/
def wsCloseCall : WsReadyState → WsReadyState
  | .openState => .closing
  | .connecting => .closedState
  | st => st

/-- A parsed JSON client control message, restricted to the fields the
`src/server/index.js` message handler reads (`type`, `format`, `rate`,
`chunk`). -/
structure RawMsg where
  ty : String
  format : Option String
  rate : Option Nat
  chunk : Option String
deriving DecidableEq, Repr

/-- Messages the gateway sends to the client via `sendJson`. -/
inductive SiMsg where
  | statusMsg (state : String)
  | pongMsg
  | ackMsg (upstream : String) (note : Option String)
  | errorMsg (error : String) (detail : Option String)
  | echoMsg (m : RawMsg)
  | byeMsg
  | keepaliveMsg
deriving DecidableEq, Repr

/-- Per-connection state of `src/server/index.js`. -/
structure SiState where
  bridge : Option Bridge
  sentReady : Bool
  acked : Bool
  upstreamReady : Bool
  readyTimerArmed : Bool
  keepaliveOn : Bool
  closed : Bool
  out : List SiMsg
  upstreamAudio : Nat
deriving DecidableEq, Repr

/-- Initial per-connection state. -/
def siInit : SiState :=
  { bridge := none, sentReady := false, acked := false,
    upstreamReady := false, readyTimerArmed := false, keepaliveOn := false,
    closed := false, out := [], upstreamAudio := 0 }

/-- `bridge?.ready()` as used by the `client_audio` branch. -/
def bridgeReady (s : SiState) : Bool :=
  match s.bridge with
  | some b => b.isReady
  | none => false

/-- Triggers acting on one `src/server/index.js` connection: client
messages (already JSON-parsed, or unparsable), the asynchronous outcome
of the `start` handler (`openLiveSession` resolving, throwing, or no
`LIVE_API_WS_URL` configured), the bridge `onEvent`/`onClose` callbacks,
the readiness timer, and the WebSocket close. -/
inductive SiEvent where
  | clientMsg (m : RawMsg)
  | badJson
  | connectOk
  | connectFail (msg : String)
  | noLiveUrl
  | evtUpstreamReady
  | evtHandshakeFailed (httpStatus : Nat) (statusText : String)
  | evtUpstreamClose (code : Nat) (reason : String)
  | evtReadyTimeout (toMs : Nat)
  | wsClose
deriving DecidableEq, Repr

/-- The `detail` string of the handshake-failure error:
`http_status=${evt.http_status} ${evt.http_status_text || ""}` trimmed. -/
def handshakeDetail (st : Nat) (stText : String) : String :=
  jsTrim ("http_status=" ++ toString st ++ " " ++ stText)

/-- The `detail` string of the pre-ready upstream-close error:
`close_code=${code} ${reason || ""}` trimmed. -/
def closeDetail (code : Nat) (reason : String) : String :=
  jsTrim ("close_code=" ++ toString code ++ " " ++ reason)

/-- The `detail` string of the readiness-timeout error:
`ready_timeout=${to}`. -/
def timeoutDetail (toMs : Nat) : String :=
  "ready_timeout=" ++ toString toMs

/-- One step of a `src/server/index.js` connection: the `ws.on` message
switch, the `start` handler continuations, the `onEvent` / `onClose`
bridge callbacks, and the `readyTimer` callback, embedded from the
source.  After `ws.close` no further triggers act (`closed` guard). -/
def siStep (s : SiState) (e : SiEvent) : SiState :=
  if s.closed then s else
  match e with
  | .clientMsg m =>
      if m.ty = "ping" then { s with out := s.out ++ [.pongMsg] }
      else if m.ty = "start" then
        let s1 :=
          if s.sentReady then s
          else { s with sentReady := true, out := s.out ++ [.statusMsg "ready"] }
        { s1 with keepaliveOn := true }
      else if m.ty = "client_audio" then
        if ¬ (m.chunk.isSome ∧ m.format = some "pcm16" ∧ m.rate = some 16000) then
          { s with out := s.out ++ [.errorMsg "bad_audio_format" none] }
        else if bridgeReady s then
          { s with upstreamAudio := s.upstreamAudio + 1 }
        else s
      else if m.ty = "end_call" then
        { s with out := s.out ++ [.byeMsg],
                 bridge := s.bridge.map
                   (fun b => { b with readyState := wsCloseCall b.readyState }),
                 closed := true }
      else { s with out := s.out ++ [.echoMsg m] }
  | .badJson => { s with out := s.out ++ [.errorMsg "bad_json" none] }
  | .connectOk =>
      { s with bridge := some { readyState := WsReadyState.connecting },
               readyTimerArmed := true }
  | .connectFail msg =>
      { s with acked := true,
               out := s.out ++
                 [.errorMsg "live_connect_failed" (some msg),
                  .ackMsg "echo" (some "live_connect_failed")] }
  | .noLiveUrl =>
      { s with out := s.out ++ [.ackMsg "echo" none], acked := true }
  | .evtUpstreamReady =>
      match s.bridge with
      | none => s
      | some b =>
        let s1 := { s with upstreamReady := true, readyTimerArmed := false,
                           bridge := some { b with readyState := wsOpenTransition b.readyState },
                           out := s.out ++ [SiMsg.statusMsg "upstream_ready"] }
        if s1.acked then s1
        else { s1 with acked := true, out := s1.out ++ [SiMsg.ackMsg "live" none] }
  | .evtHandshakeFailed st stText =>
      match s.bridge with
      | none => s
      | some _ =>
        if s.acked then s
        else { s with readyTimerArmed := false, acked := true,
                      out := s.out ++
                        [.errorMsg "live_connect_failed" (some (handshakeDetail st stText)),
                         .ackMsg "echo" (some "live_connect_failed")] }
  | .evtUpstreamClose code reason =>
      match s.bridge with
      | none => s
      | some b =>
        if s.acked then
          { s with bridge := some { b with readyState := WsReadyState.closedState },
                   readyTimerArmed := false, closed := true }
        else
          { s with bridge := some { b with readyState := WsReadyState.closedState },
                   readyTimerArmed := false, acked := true,
                   out := s.out ++
                     [SiMsg.errorMsg "live_connect_failed" (some (closeDetail code reason)),
                      SiMsg.ackMsg "echo" (some "live_connect_failed")] }
  | .evtReadyTimeout toMs =>
      if ¬ s.readyTimerArmed then s
      else if s.acked then { s with readyTimerArmed := false }
      else
        { s with readyTimerArmed := false, acked := true,
                 bridge := s.bridge.map
                   (fun b => { b with readyState := wsCloseCall b.readyState }),
                 out := s.out ++
                   [.errorMsg "live_connect_failed" (some (timeoutDetail toMs)),
                    .ackMsg "echo" (some "live_connect_failed")] }
  | .wsClose =>
      { s with closed := true, keepaliveOn := false,
               bridge := s.bridge.map
                 (fun b => { b with readyState := wsCloseCall b.readyState }) }

/-- Run a `src/server/index.js` connection over a list of triggers. -/
def siRun (s : SiState) (es : List SiEvent) : SiState :=
  List.foldl siStep s es

/-- A well-formed `client_audio` message
(`format:"pcm16", rate:16000, chunk:<base64>`). -/
def validAudio : RawMsg :=
  { ty := "client_audio", format := some "pcm16", rate := some 16000,
    chunk := some "AAAA" }

/-- The three upstream connect-failure causes of spec section 7:
handshake failure, readiness timeout, pre-ready disconnect. -/
inductive ConnectFailCause where
  | handshake (st : Nat) (stText : String)
  | readyTimeout (toMs : Nat)
  | preReadyClose (code : Nat) (reason : String)
deriving DecidableEq, Repr

/-- The session trigger produced by each connect-failure cause. -/
def causeEvent : ConnectFailCause → SiEvent
  | .handshake st stText => .evtHandshakeFailed st stText
  | .readyTimeout toMs => .evtReadyTimeout toMs
  | .preReadyClose code reason => .evtUpstreamClose code reason

/-- The cause-specific detail string of the `live_connect_failed`
error event. -/
def causeDetail : ConnectFailCause → String
  | .handshake st stText => handshakeDetail st stText
  | .readyTimeout toMs => timeoutDetail toMs
  | .preReadyClose code reason => closeDetail code reason

/-- Side condition under which a cause can fire: the readiness timer
only fires while armed (a cleared timer never runs). -/
def causeReady (c : ConnectFailCause) (s : SiState) : Prop :=
  match c with
  | .readyTimeout _ => s.readyTimerArmed = true
  | _ => True

/-! ## Part 4: client VAD engines

Two VAD implementations are cited.  `src/hooks/use-voice-activity-detection.ts`
decides per animation frame: `speaking = normalizedVolume >= volumeThreshold`
(static threshold), and leaves the speaking state only when
`silenceSec >= max(silenceThreshold, minSilenceDuration)` and
`speechSec >= minSpeechDuration`, where both durations are measured from
their start timestamps to the current frame time.
`src/ai-phone-system/hooks/use-voice-activity-detection.ts` (and the
unnamed source `part_004`) instead compare `rms` against an adaptive
threshold `Math.max(volumeThreshold, averageVolume * 1.5)` over a
rolling history of at most 100 samples, and confirm speech end with a
`silenceThreshold`-long timer.  Times are milliseconds and volumes are
normalized values, both as exact rationals. -/

/-- VAD configuration of `src/hooks/use-voice-activity-detection.ts`,
with its default values (seconds, normalized volume). -/
structure VadConfig where
  silenceThreshold : ℚ := 1
  volumeThreshold : ℚ := 3 / 100
  minSpeechDuration : ℚ := 3 / 10
  minSilenceDuration : ℚ := 3 / 10
  maxSpeechDuration : ℚ := 30
deriving DecidableEq, Repr

/-- Callback events emitted by the VAD engine. -/
inductive VadEvent where
  | speechStartEvt
  | speechEndEvt
deriving DecidableEq, Repr

/-- Per-capture VAD state of `src/hooks/use-voice-activity-detection.ts`
(`isSpeakingRef`, `speechStartTimeRef`, `silenceStartTimeRef`,
`maxDurationTimerRef`), plus the list of emitted callback events. -/
structure VadState where
  isSpeaking : Bool
  speechStartTime : Option ℚ
  silenceStartTime : Option ℚ
  maxTimerArmed : Bool
  volumeHistory : List ℚ
  events : List VadEvent
deriving DecidableEq, Repr

/-- VAD state at capture start. -/
def vadInit : VadState :=
  { isSpeaking := false, speechStartTime := none, silenceStartTime := none,
    maxTimerArmed := false, volumeHistory := [], events := [] }

/-- The rolling-history update of both VAD engines:
`volumeHistory.push(v); if (length > 100) shift()`. -/
def pushHistory (h : List ℚ) (v : ℚ) : List ℚ :=
  let h1 := h ++ [v]
  if 100 < h1.length then h1.tail else h1

/-- The per-frame speaking decision of
`src/hooks/use-voice-activity-detection.ts`:
`const speaking = normalizedVolume >= volumeThreshold`. -/
def hooksSpeaking (volumeThreshold vol : ℚ) : Bool :=
  decide (volumeThreshold ≤ vol)

/-- One `analyzeAudio` frame of
`src/hooks/use-voice-activity-detection.ts` at time `now` (ms) with
normalized volume `vol`: the speech-start branch (arms the max-duration
timer, fires `onSpeechStart`) and the silence branch (fires
`onSpeechEnd` only when the silence window is over
`max(silenceThreshold, minSilenceDuration)` and the measured
`speechSec` — speech start to now — is at least `minSpeechDuration`). -/
def analyzeStep (cfg : VadConfig) (st : VadState) (sample : ℚ × ℚ) : VadState :=
  let now := sample.1
  let vol := sample.2
  let st := { st with volumeHistory := pushHistory st.volumeHistory vol }
  let speaking := hooksSpeaking cfg.volumeThreshold vol
  if speaking && !st.isSpeaking then
    { st with isSpeaking := true, speechStartTime := some now,
              silenceStartTime := none, maxTimerArmed := true,
              events := st.events ++ [VadEvent.speechStartEvt] }
  else if !speaking && st.isSpeaking then
    let sStart := st.silenceStartTime.getD now
    let silenceSec := (now - sStart) / 1000
    let speechSec :=
      match st.speechStartTime with
      | some t => (now - t) / 1000
      | none => 0
    if silenceSec ≥ max cfg.silenceThreshold cfg.minSilenceDuration ∧
       speechSec ≥ cfg.minSpeechDuration then
      { st with isSpeaking := false, speechStartTime := none,
                silenceStartTime := none, maxTimerArmed := false,
                events := st.events ++ [VadEvent.speechEndEvt] }
    else { st with silenceStartTime := some sStart }
  else st

/-- Feed an energy trace (time, volume samples in frame order) to the
`src/hooks` VAD engine. -/
def vadRun (cfg : VadConfig) (trace : List (ℚ × ℚ)) : VadState :=
  List.foldl (analyzeStep cfg) vadInit trace

/-- `averageVolume`: mean of the rolling history. -/
def rollingAverage (h : List ℚ) : ℚ :=
  h.sum / (h.length : ℚ)

/-- The adaptive threshold of
`src/ai-phone-system/hooks/use-voice-activity-detection.ts` and
`part_004`: `Math.max(volumeThreshold, averageVolume * 1.5)`. -/
def apsAdaptiveThreshold (volumeThreshold : ℚ) (h : List ℚ) : ℚ :=
  max volumeThreshold (rollingAverage h * (3 / 2))

/-- The per-tick speaking decision of the `ai-phone-system` VAD:
`const isSpeaking = rms > adaptiveThreshold`. -/
def apsIsSpeaking (volumeThreshold rms : ℚ) (h : List ℚ) : Bool :=
  decide (apsAdaptiveThreshold volumeThreshold h < rms)

/-- The decision rule in the words of the spec (for comparison with the
source decisions): compare the current energy sample against
`max(staticVolumeThreshold, rollingAverage * multiplier)`. -/
def claimedSpeaking (staticTh mult : ℚ) (h : List ℚ) (sample : ℚ) : Bool :=
  decide (max staticTh (rollingAverage h * mult) < sample)

/-- Path-failure condition of the ws-gateway upgrade handler
(`!url || !url.startsWith(WS_PATH)`). -/
def wgPathFail (c : WgConfig) (r : WgRequest) : Prop :=
  r.url = "" ∨ jsStartsWith r.url c.wsPath = false

/-- Origin-failure condition of the ws-gateway upgrade handler: a
non-empty allow-list, a present (truthy) Origin header, and the origin
not in the list. -/
def wgOriginFail (c : WgConfig) (r : WgRequest) : Prop :=
  c.allowedOrigins ≠ [] ∧ truthy r.origin = true ∧ r.origin.getD "" ∉ c.allowedOrigins

/-- Token-failure condition of the ws-gateway upgrade handler: token
required and neither the bare token nor `Bearer <token>` provided via
the subprotocol or authorization header. -/
def wgTokenFail (c : WgConfig) (r : WgRequest) : Prop :=
  c.requireToken = true ∧
  ¬ (jsOr r.secWsProtocol r.authorization = c.wsToken ∨
     jsOr r.secWsProtocol r.authorization = "Bearer " ++ c.wsToken)

/-- Origin-failure condition of the `src/server/index.js` handler: a
present (truthy) Origin header not in the allow-list. -/
def siOriginFail (c : SiConfig) (r : SiRequest) : Prop :=
  truthy r.origin = true ∧ r.origin.getD "" ∉ c.allowedOrigins

/-- Path-failure condition of the `src/server/index.js` handler
(exact match against the fixed route `/ws`). -/
def siPathFail (r : SiRequest) : Prop :=
  r.pathname ≠ "/ws"

/-- Token-failure condition of the `src/server/index.js` handler. -/
def siTokenFail (c : SiConfig) (r : SiRequest) : Prop :=
  c.requireToken = true ∧ (c.wsToken = "" ∨ jsOr r.xWsToken r.queryToken ≠ c.wsToken)

/-! ## Theorems -/

/-! ### ws-gateway turn invariants (claims C1, C2, C3) -/

/-- Latch invariant of a ws-gateway session: the batch path has run at
most once, and not at all while `forwarded` is unset; the streaming path
has run at most once, and not at all while `llmStarted` is unset on a
live connection. -/
def GwTurnInv (s : GwState) : Prop :=
  s.forwardCount ≤ 1 ∧ (s.forwarded = false → s.forwardCount = 0) ∧
  s.llmRuns ≤ 1 ∧ (s.llmStarted = false ∧ s.closed = false → s.llmRuns = 0)

theorem gwTurnInv_init : GwTurnInv gwInit := by
  refine ⟨?_, ?_, ?_, ?_⟩ <;> simp [gwInit, GwTurnInv]

theorem gwTurnInv_step (s : GwState) (e : GwEvent) (h : GwTurnInv s) :
    GwTurnInv (gwStep s e) := by
  obtain ⟨h1, h2, h3, h4⟩ := h
  unfold GwTurnInv gwStep
  cases e <;>
    simp only [forwardAndRespond, runLLM] <;>
    split_ifs <;>
    simp_all

theorem gwTurnInv_run (es : List GwEvent) (s : GwState) (h : GwTurnInv s) :
    GwTurnInv (gwRun s es) := by
  induction es generalizing s with
  | nil => exact h
  | cons e es ih => exact ih (gwStep s e) (gwTurnInv_step s e h)

/-- Claim C1: `forwardAndRespond` executes its body at most once per
turn — once the `forwarded` latch is set, any later invocation returns
immediately without changing the session, and over an arbitrary sequence
of triggers (audio chunks, silence-timer firings, explicit `eos`,
STT results, connection close) the forward body runs at most once. -/
theorem claim_C1_forward_latch (s : GwState) (es : List GwEvent)
    (h : s.forwarded = true) :
    forwardAndRespond s = s ∧ (gwRun gwInit es).forwardCount ≤ 1 :=
  ⟨by simp [forwardAndRespond, h], (gwTurnInv_run es gwInit gwTurnInv_init).1⟩

/-- Witness for C1 at a concrete latched state and the trace
`eos, eos, close` (three competing triggers, one forward). -/
theorem claim_C1_forward_latch_witness :
    forwardAndRespond { gwInit with forwarded := true } = { gwInit with forwarded := true } ∧
    (gwRun gwInit [.eos, .eos, .closeEvt]).forwardCount ≤ 1 :=
  claim_C1_forward_latch { gwInit with forwarded := true } [.eos, .eos, .closeEvt] rfl

/-- Claim C2 counterexample: an audio chunk arms the silence timer; the
timer fires with a non-empty buffer on an unforwarded turn, yet the
gateway does not finalize — nothing is forwarded (`forwardCount` stays
0, `forwarded` stays unset, the buffer is kept) and no reply cycle is
started, contradicting the claimed automatic finalize-and-forward. -/
theorem claim_C2_counterexample :
    let s := gwRun gwInit [.audioChunk [1], .silenceFire]
    s.forwarded = false ∧ s.forwardCount = 0 ∧ s.llmRuns = 0 ∧ s.chunks = [[1]] := by
  decide

/-- Claim C2 amended: when the silence timer fires with a non-empty
buffer on an unforwarded turn, the gateway never forwards the buffered
audio from this path (buffer, `forwarded` and `forwardCount` are
untouched); if an STT transcript is available and the streaming path has
not started, it instead starts the LLM/TTS reply cycle exactly once
(latching `llmStarted`), and otherwise it holds, keeping the session
open for more audio. -/
theorem claim_C2_amended (s : GwState)
    (hc : s.closed = false) (ha : s.silenceArmed = true)
    (hf : s.forwarded = false) (hne : s.chunks ≠ []) :
    (gwStep s .silenceFire).forwardCount = s.forwardCount ∧
    (gwStep s .silenceFire).forwarded = false ∧
    (gwStep s .silenceFire).chunks = s.chunks ∧
    (if s.llmStarted = false ∧ pickText s.sttLastFinal s.sttLastInterim ≠ ""
     then (gwStep s .silenceFire).llmRuns = s.llmRuns + 1 ∧
          (gwStep s .silenceFire).llmStarted = true
     else (gwStep s .silenceFire).llmRuns = s.llmRuns ∧
          (gwStep s .silenceFire).llmStarted = s.llmStarted) := by
  have hlen : 0 < s.chunks.length := List.length_pos.mpr hne
  unfold gwStep
  simp only [hc, ha, hf]
  split_ifs <;> simp_all [runLLM]

/-- Witness for C2 amended: a turn holding one chunk and a weak interim
transcript (no sentence-final punctuation, below the length threshold,
so the early trigger has not fired) — the silence firing starts the LLM
cycle once and forwards nothing. -/
theorem claim_C2_amended_witness :
    let s := gwRun gwInit [.sttInterimRes "はい、お願いし", .audioChunk [2]]
    (gwStep s .silenceFire).forwardCount = s.forwardCount ∧
    (gwStep s .silenceFire).forwarded = false ∧
    (gwStep s .silenceFire).chunks = s.chunks ∧
    (if s.llmStarted = false ∧ pickText s.sttLastFinal s.sttLastInterim ≠ ""
     then (gwStep s .silenceFire).llmRuns = s.llmRuns + 1 ∧
          (gwStep s .silenceFire).llmStarted = true
     else (gwStep s .silenceFire).llmRuns = s.llmRuns ∧
          (gwStep s .silenceFire).llmStarted = s.llmStarted) :=
  claim_C2_amended (gwRun gwInit [.sttInterimRes "はい、お願いし", .audioChunk [2]])
    rfl rfl rfl (by decide)

/-- Claim C3 counterexample: after an interim transcript ending in
sentence-final punctuation the streaming path starts (`llmStarted`
latch, one `runLLMAndTTS` cycle); a subsequent explicit `eos` still
reaches `forwardAndRespond`, whose own `forwarded` latch is unset, so
the batch path also runs — two downstream reply cycles are started for
the same turn, and by two different latches rather than one shared
latch. -/
theorem claim_C3_counterexample :
    let s := gwRun gwInit
      [.audioChunk [0], .sttInterimRes "かしこまりました。", .eos]
    s.llmRuns = 1 ∧ s.forwardCount = 1 ∧ s.llmStarted = true ∧ s.forwarded = true := by
  decide

/-- Claim C3 amended: the two forwarding paths are guarded by two
separate latches, not one shared latch — `runLLMAndTTS` by `llmStarted`
and `forwardAndRespond` by `forwarded`.  Each path individually runs at
most once per turn over any trigger sequence, but an `eos` arriving
after the streaming path has started still triggers the batch forward,
so up to two downstream reply cycles can be started for one turn. -/
theorem claim_C3_amended_two_latches (es : List GwEvent) :
    (gwRun gwInit es).llmRuns ≤ 1 ∧ (gwRun gwInit es).forwardCount ≤ 1 :=
  ⟨(gwTurnInv_run es gwInit gwTurnInv_init).2.2.1,
   (gwTurnInv_run es gwInit gwTurnInv_init).1⟩

/-! ### Admission control (claims C4, C5) -/

/-- Claim C4 counterexample: with route `/ws`, a request for
`/wsadmin` — a path that does not exactly equal the configured route —
is not rejected with 404 by the ws-gateway handler: the check is a
prefix test, the upgrade is accepted and a session is created. -/
theorem claim_C4_counterexample :
    wgUpgrade
      { wsPath := "/ws", allowedOrigins := [], requireToken := false, wsToken := "" }
      { url := "/wsadmin", origin := none, secWsProtocol := none, authorization := none }
      = .accept ∧ ("/wsadmin" : String) ≠ "/ws" := by
  decide

/-- Claim C4 amended: each failure cause yields its distinct status and
only fully passing requests complete the handshake, but the checks are
as implemented: the ws-gateway path check is a prefix test (404 exactly
when the URL is empty or does not start with the configured route, so
unequal extensions of the route are admitted), then origin (403: present
non-allow-listed origin against a non-empty allow-list), then token
(401); `src/server/index.js` checks origin first (403: present
non-allow-listed origin), then the exact path `/ws` (404), then the
token (401) — so a request failing both origin and path is answered 403
there, not 404. -/
theorem claim_C4_amended_admission (c : WgConfig) (r : WgRequest)
    (c2 : SiConfig) (r2 : SiRequest) :
    (wgUpgrade c r = .reject404 ↔ wgPathFail c r) ∧
    (wgUpgrade c r = .reject403 ↔ ¬ wgPathFail c r ∧ wgOriginFail c r) ∧
    (wgUpgrade c r = .reject401 ↔
      ¬ wgPathFail c r ∧ ¬ wgOriginFail c r ∧ wgTokenFail c r) ∧
    (wgUpgrade c r = .accept ↔
      ¬ wgPathFail c r ∧ ¬ wgOriginFail c r ∧ ¬ wgTokenFail c r) ∧
    (siUpgrade c2 r2 = .reject403 ↔ siOriginFail c2 r2) ∧
    (siUpgrade c2 r2 = .reject404 ↔ ¬ siOriginFail c2 r2 ∧ siPathFail r2) ∧
    (siUpgrade c2 r2 = .reject401 ↔
      ¬ siOriginFail c2 r2 ∧ ¬ siPathFail r2 ∧ siTokenFail c2 r2) ∧
    (siUpgrade c2 r2 = .accept ↔
      ¬ siOriginFail c2 r2 ∧ ¬ siPathFail r2 ∧ ¬ siTokenFail c2 r2) := by
  unfold wgUpgrade siUpgrade wgPathFail wgOriginFail wgTokenFail
    siOriginFail siPathFail siTokenFail
  split_ifs <;> simp_all <;> tauto

/-- Claim C5 counterexample: a non-empty origin allow-list is
configured, the upgrade request carries no Origin header, and no
allow-no-origin setting exists in the cited handlers — yet the
ws-gateway upgrade is accepted (a session is created), not rejected
with 403. -/
theorem claim_C5_counterexample :
    wgUpgrade
      { wsPath := "/ws", allowedOrigins := ["https://a.example"],
        requireToken := false, wsToken := "" }
      { url := "/ws", origin := none, secWsProtocol := none, authorization := none }
      = .accept := by
  decide

/-- Claim C5 amended: in the cited handlers (`ws-gateway/server.js` and
`src/server/index.js`) an upgrade with no Origin header always passes
the origin check, whatever the allow-list — neither handler has an
allow-no-origin setting, so no absent-origin request is answered 403;
only the hardened gateway variant (unnamed source `part_014`) implements
the claimed behavior: with `ALLOW_NO_ORIGIN` disabled, an absent Origin
is rejected with 403 before any session or timer is created. -/
theorem claim_C5_amended_no_origin (c : WgConfig) (r : WgRequest)
    (c2 : SiConfig) (r2 : SiRequest) (c3 : HdConfig) (r3 : HdRequest)
    (h1 : r.origin = none) (h2 : r2.origin = none)
    (h3 : r3.origin = none) (h4 : c3.allowNoOrigin = false) :
    wgUpgrade c r ≠ .reject403 ∧ siUpgrade c2 r2 ≠ .reject403 ∧
    hdUpgrade c3 r3 = .reject403 := by
  refine ⟨?_, ?_, ?_⟩
  · unfold wgUpgrade
    split_ifs with hx hy <;> simp_all [truthy]
  · unfold siUpgrade
    split_ifs with hx <;> simp_all [truthy]
  · unfold hdUpgrade
    split_ifs with hx <;> simp_all [truthy]

/-- Witness for C5 amended at a concrete no-Origin request against a
non-empty allow-list on all three handlers. -/
theorem claim_C5_amended_no_origin_witness :
    wgUpgrade
      { wsPath := "/ws", allowedOrigins := ["https://a.example"],
        requireToken := false, wsToken := "" }
      { url := "/ws", origin := none, secWsProtocol := none, authorization := none }
      ≠ .reject403 ∧
    siUpgrade
      { allowedOrigins := ["https://a.example"], requireToken := false, wsToken := "" }
      { pathname := "/ws", origin := none, xWsToken := none, queryToken := none }
      ≠ .reject403 ∧
    hdUpgrade
      { allowNoOrigin := false, allowQueryToken := false,
        allowedOrigins := ["https://a.example"], requireToken := false, wsToken := "" }
      { pathname := "/ws", origin := none, secWsProtocol := none,
        xWsToken := none, queryToken := none }
      = .reject403 :=
  claim_C5_amended_no_origin _ _ _ _ _ _ rfl rfl rfl rfl

/-! ### Session gateway fallback and echo behavior (claims C6, C7, C10) -/

theorem siStep_audio_noop (s : SiState) (hc : s.closed = false) (hb : bridgeReady s = false) :
    siStep s (.clientMsg validAudio) = s := by
  unfold siStep validAudio
  simp [hc, hb]

theorem siRun_audio_noop (s : SiState) (hc : s.closed = false) (hb : bridgeReady s = false)
    (n : Nat) :
    siRun s (List.replicate n (.clientMsg validAudio)) = s := by
  induction n with
  | zero => rfl
  | succ k ih =>
      rw [List.replicate_succ]
      unfold siRun
      rw [List.foldl_cons, siStep_audio_noop s hc hb]
      exact ih

/-- Claim C6: each of the three upstream connect-failure causes
(handshake failure, readiness timeout, disconnect before the first
acknowledgment) makes the gateway send the client an `error` event
`live_connect_failed` with a cause-specific detail immediately followed
by an `ack` with `upstream = "echo"`; afterwards the session stays open,
and any number of subsequent well-formed client audio messages are
accepted without any error and without relaying anything to a real
upstream: the bridge socket is still CONNECTING when the pre-ack
failure hits (handshake never completed), and after the failure it is
not open — so `ready()` is false and each audio message leaves the
state unchanged. -/
theorem claim_C6_echo_fallback (s : SiState) (b : Bridge) (cause : ConnectFailCause)
    (hc : s.closed = false) (ha : s.acked = false) (hb : s.bridge = some b)
    (hr : b.readyState = WsReadyState.connecting) (hcr : causeReady cause s) :
    (siStep s (causeEvent cause)).out =
      s.out ++ [SiMsg.errorMsg "live_connect_failed" (some (causeDetail cause)),
                SiMsg.ackMsg "echo" (some "live_connect_failed")] ∧
    (siStep s (causeEvent cause)).acked = true ∧
    (siStep s (causeEvent cause)).closed = false ∧
    bridgeReady (siStep s (causeEvent cause)) = false ∧
    ∀ n, siRun (siStep s (causeEvent cause))
          (List.replicate n (.clientMsg validAudio)) = siStep s (causeEvent cause) := by
  have key : (siStep s (causeEvent cause)).out =
      s.out ++ [SiMsg.errorMsg "live_connect_failed" (some (causeDetail cause)),
                SiMsg.ackMsg "echo" (some "live_connect_failed")] ∧
      (siStep s (causeEvent cause)).acked = true ∧
      (siStep s (causeEvent cause)).closed = false ∧
      bridgeReady (siStep s (causeEvent cause)) = false := by
    cases cause with
    | handshake st stText =>
        simp only [causeEvent, causeDetail, siStep, hb]
        simp [hc, ha, hr, bridgeReady, Bridge.isReady]
    | readyTimeout toMs =>
        have harm : s.readyTimerArmed = true := hcr
        simp only [causeEvent, causeDetail, siStep, hb]
        simp [hc, ha, harm, hr, bridgeReady, Bridge.isReady, wsCloseCall]
    | preReadyClose code reason =>
        simp only [causeEvent, causeDetail, siStep, hb]
        simp [hc, ha, bridgeReady, Bridge.isReady]
  exact ⟨key.1, key.2.1, key.2.2.1, key.2.2.2,
    fun n => siRun_audio_noop _ key.2.2.1 key.2.2.2 n⟩

/-- Witness for C6: a freshly connected bridge (after `connectOk`)
failing its handshake with HTTP 403. -/
theorem claim_C6_echo_fallback_witness :
    (siStep (siStep siInit .connectOk)
        (causeEvent (.handshake 403 "Forbidden"))).out =
      (siStep siInit .connectOk).out ++
        [SiMsg.errorMsg "live_connect_failed"
           (some (causeDetail (.handshake 403 "Forbidden"))),
         SiMsg.ackMsg "echo" (some "live_connect_failed")] ∧
    (siStep (siStep siInit .connectOk)
        (causeEvent (.handshake 403 "Forbidden"))).acked = true ∧
    (siStep (siStep siInit .connectOk)
        (causeEvent (.handshake 403 "Forbidden"))).closed = false ∧
    bridgeReady (siStep (siStep siInit .connectOk)
        (causeEvent (.handshake 403 "Forbidden"))) = false ∧
    ∀ n, siRun (siStep (siStep siInit .connectOk)
            (causeEvent (.handshake 403 "Forbidden")))
          (List.replicate n (.clientMsg validAudio)) =
        siStep (siStep siInit .connectOk) (causeEvent (.handshake 403 "Forbidden")) :=
  claim_C6_echo_fallback (siStep siInit .connectOk)
    { readyState := WsReadyState.connecting }
    (.handshake 403 "Forbidden") rfl rfl rfl rfl trivial

/-- Claim C7: starting from any live, not-yet-acked session whose
bridge socket is in any state, once the readiness timeout fires the
echo fallback (`acked` set, echo ack sent, `bridge?.close()` called —
`upstream.close(1000, ...)`), a later-arriving upstream `ready` signal
is a no-op: the only message sent to the client is the forwarded
`status upstream_ready` event — no second ack — and the session remains
in echo mode: a socket whose close was initiated never returns to OPEN,
so `ready()` stays false and any number of subsequent client audio
messages relay nothing to a live upstream. -/
theorem claim_C7_late_ready_noop (s0 : SiState) (b : Bridge) (toMs : Nat)
    (hc : s0.closed = false) (ha : s0.acked = false) (hb : s0.bridge = some b)
    (harm : s0.readyTimerArmed = true) :
    (siStep (siStep s0 (.evtReadyTimeout toMs)) .evtUpstreamReady).out =
      (siStep s0 (.evtReadyTimeout toMs)).out ++ [SiMsg.statusMsg "upstream_ready"] ∧
    (siStep (siStep s0 (.evtReadyTimeout toMs)) .evtUpstreamReady).acked = true ∧
    (siStep (siStep s0 (.evtReadyTimeout toMs)) .evtUpstreamReady).closed = false ∧
    bridgeReady (siStep (siStep s0 (.evtReadyTimeout toMs)) .evtUpstreamReady) = false ∧
    ∀ n, siRun (siStep (siStep s0 (.evtReadyTimeout toMs)) .evtUpstreamReady)
          (List.replicate n (.clientMsg validAudio)) =
        siStep (siStep s0 (.evtReadyTimeout toMs)) .evtUpstreamReady := by
  have h1 : siStep s0 (.evtReadyTimeout toMs) =
      { s0 with readyTimerArmed := false, acked := true,
                bridge := some { readyState := wsCloseCall b.readyState },
                out := s0.out ++
                  [SiMsg.errorMsg "live_connect_failed" (some (timeoutDetail toMs)),
                   SiMsg.ackMsg "echo" (some "live_connect_failed")] } := by
    simp only [siStep, hb]
    simp [hc, ha, harm]
  have key :
      (siStep (siStep s0 (.evtReadyTimeout toMs)) .evtUpstreamReady).out =
        (siStep s0 (.evtReadyTimeout toMs)).out ++ [SiMsg.statusMsg "upstream_ready"] ∧
      (siStep (siStep s0 (.evtReadyTimeout toMs)) .evtUpstreamReady).acked = true ∧
      (siStep (siStep s0 (.evtReadyTimeout toMs)) .evtUpstreamReady).closed = false ∧
      bridgeReady (siStep (siStep s0 (.evtReadyTimeout toMs)) .evtUpstreamReady)
        = false := by
    rw [h1]
    cases hst : b.readyState <;>
      simp [siStep, hc, bridgeReady, Bridge.isReady, wsCloseCall, wsOpenTransition, hst]
  exact ⟨key.1, key.2.1, key.2.2.1, key.2.2.2,
    fun n => siRun_audio_noop _ key.2.2.1 key.2.2.2 n⟩

/-- Witness for C7: a freshly connected (CONNECTING) bridge whose
readiness timeout fires, then a late upstream `ready`. -/
theorem claim_C7_late_ready_noop_witness :
    (siStep (siStep (siStep siInit .connectOk) (.evtReadyTimeout 8000))
        .evtUpstreamReady).out =
      (siStep (siStep siInit .connectOk) (.evtReadyTimeout 8000)).out ++
        [SiMsg.statusMsg "upstream_ready"] ∧
    (siStep (siStep (siStep siInit .connectOk) (.evtReadyTimeout 8000))
        .evtUpstreamReady).acked = true ∧
    (siStep (siStep (siStep siInit .connectOk) (.evtReadyTimeout 8000))
        .evtUpstreamReady).closed = false ∧
    bridgeReady (siStep (siStep (siStep siInit .connectOk) (.evtReadyTimeout 8000))
        .evtUpstreamReady) = false ∧
    ∀ n, siRun
          (siStep (siStep (siStep siInit .connectOk) (.evtReadyTimeout 8000))
            .evtUpstreamReady)
          (List.replicate n (.clientMsg validAudio)) =
        siStep (siStep (siStep siInit .connectOk) (.evtReadyTimeout 8000))
          .evtUpstreamReady :=
  claim_C7_late_ready_noop (siStep siInit .connectOk)
    { readyState := WsReadyState.connecting } 8000 rfl rfl rfl rfl

/-- Claim C10: a well-formed JSON control message whose type is none of
`ping`, `start`, `client_audio`, `end_call` is answered with an echo
message carrying the original message, and nothing else changes — in
particular the connection stays open. -/
theorem claim_C10_unknown_type_echo (s : SiState) (m : RawMsg)
    (hc : s.closed = false) (h1 : m.ty ≠ "ping") (h2 : m.ty ≠ "start")
    (h3 : m.ty ≠ "client_audio") (h4 : m.ty ≠ "end_call") :
    siStep s (.clientMsg m) = { s with out := s.out ++ [SiMsg.echoMsg m] } := by
  unfold siStep
  simp [hc, h1, h2, h3, h4]

/-- Witness for C10: the unrecognized control type `greeting` on a fresh
connection. -/
theorem claim_C10_unknown_type_echo_witness :
    siStep siInit
        (.clientMsg { ty := "greeting", format := none, rate := none, chunk := none }) =
      { siInit with out := siInit.out ++
          [SiMsg.echoMsg { ty := "greeting", format := none, rate := none, chunk := none }] } :=
  claim_C10_unknown_type_echo siInit
    { ty := "greeting", format := none, rate := none, chunk := none }
    rfl (by decide) (by decide) (by decide) (by decide)

/-! ### VAD engines (claims C8, C9) -/

/-- Claim C8 failing input: with the default configuration
(volume threshold 0.03, silence threshold 1.0 s, minimum speech duration
0.3 s, minimum silence duration 0.3 s), the energy trace
volume 0.5 at t = 0 ms, 0 at t = 150 ms, 0 at t = 1150 ms is a 150 ms
speech blip followed by silence — a segment shorter than
`minSpeechDuration` — yet `onSpeechEnd` fires and the engine leaves the
speaking state: the guard compares the speech-start-to-now duration,
which includes the whole silence wait, against `minSpeechDuration`, so
it cannot reject short blips whenever the silence window is at least
`minSpeechDuration` long. -/
theorem claim_C8_short_blip_fires_speech_end :
    (vadRun {} [((0 : ℚ), (1 : ℚ) / 2), (150, 0), (1150, 0)]).events =
      [VadEvent.speechStartEvt, VadEvent.speechEndEvt] ∧
    (vadRun {} [((0 : ℚ), (1 : ℚ) / 2), (150, 0), (1150, 0)]).isSpeaking = false ∧
    ((150 : ℚ) - 0) / 1000 < ({} : VadConfig).minSpeechDuration := by
  norm_num [vadRun, analyzeStep, vadInit, hooksSpeaking, pushHistory, List.foldl]

/-- Claim C9 counterexample: in the `src/hooks` engine the decision is
the static comparison — a 0.05 sample against the default 0.03 threshold
counts as speaking even with a rolling history averaging 0.5, for which
the claimed adaptive rule `max(static, rollingAverage * 1.5) = 0.75`
says silent.  The decision does not compare against the adaptive
threshold. -/
theorem claim_C9_counterexample :
    hooksSpeaking ((3 : ℚ) / 100) (1 / 20) = true ∧
    claimedSpeaking ((3 : ℚ) / 100) (3 / 2)
      [1 / 2, 1 / 2, 1 / 2, 1 / 2] (1 / 20) = false := by
  norm_num [hooksSpeaking, claimedSpeaking, rollingAverage]

/-- Claim C9 amended: the `ai-phone-system` engine behaves as claimed —
the history keeps at most the 100 most recent samples (push then drop
from the front past 100) and the per-tick decision equals the spec rule
`rms > max(volumeThreshold, rollingAverage * 1.5)` recomputed on the
just-updated history; the `src/hooks` engine instead decides by the
static comparison `volume >= volumeThreshold` alone. -/
theorem claim_C9_amended_adaptive (th rms v : ℚ) (h : List ℚ)
    (hlen : h.length ≤ 100) :
    pushHistory h v = (h ++ [v]).drop ((h ++ [v]).length - 100) ∧
    (pushHistory h v).length ≤ 100 ∧
    apsIsSpeaking th rms (pushHistory h v) =
      claimedSpeaking th (3 / 2) (pushHistory h v) rms ∧
    hooksSpeaking th v = decide (th ≤ v) := by
  refine ⟨?_, ?_, rfl, rfl⟩
  · unfold pushHistory
    by_cases hc : 100 < (h ++ [v]).length
    · rw [if_pos hc]
      have hd : (h ++ [v]).length - 100 = 1 := by
        simp only [List.length_append, List.length_singleton] at hc ⊢
        omega
      rw [hd, List.drop_one]
    · rw [if_neg hc]
      have hd : (h ++ [v]).length - 100 = 0 := by omega
      rw [hd, List.drop_zero]
  · unfold pushHistory
    by_cases hc : 100 < (h ++ [v]).length
    · rw [if_pos hc]
      simp only [List.length_tail, List.length_append, List.length_singleton]
      omega
    · rw [if_neg hc]
      omega

/-- Witness for C9 amended at threshold 0.03, rms 0.05, new sample 0.5
and empty history. -/
theorem claim_C9_amended_adaptive_witness :
    pushHistory [] ((1 : ℚ) / 2) =
      (([] : List ℚ) ++ [(1 : ℚ) / 2]).drop
        ((([] : List ℚ) ++ [(1 : ℚ) / 2]).length - 100) ∧
    (pushHistory [] ((1 : ℚ) / 2)).length ≤ 100 ∧
    apsIsSpeaking ((3 : ℚ) / 100) (1 / 20) (pushHistory [] ((1 : ℚ) / 2)) =
      claimedSpeaking ((3 : ℚ) / 100) (3 / 2) (pushHistory [] ((1 : ℚ) / 2)) (1 / 20) ∧
    hooksSpeaking ((3 : ℚ) / 100) ((1 : ℚ) / 2) = decide ((3 : ℚ) / 100 ≤ (1 : ℚ) / 2) :=
  claim_C9_amended_adaptive ((3 : ℚ) / 100) (1 / 20) ((1 : ℚ) / 2) [] (by decide)
